import Mathlib

/-!
Verification of the error-translation layer of the `bnf` crate
(`src/error.rs`): the closed `Error` taxonomy, its `Display` rendering,
and the `From` conversions from the nom parsing engine's failure values
(`nom::Err<&[u8]>` and `nom::Needed`).
-/

/-- nom's `ErrorKind` is opaque to this layer: every match arm of
`From<Err<&[u8]>> for Error` ignores it (binds it with `_`).  We model it
as an abstract code. -/
abbrev ErrorKind := Nat

/-- The engine failure value `nom::Err<&[u8]>` (nom 3), as a tagged
variant local to the integration boundary.  Input slices `&[u8]` are byte
lists; each sub-error in a `Node`/`NodePosition` chain is represented by
its own textual description (the string that nom's `Display`
implementation produces for it), since the `From` implementation only
ever uses sub-errors through that rendering. -/
inductive NomErr where
  | Code (k : ErrorKind)
  | Node (k : ErrorKind) (n : List String)
  | Position (k : ErrorKind) (p : List Nat)
  | NodePosition (k : ErrorKind) (p : List Nat) (n : List String)
deriving Repr

/-- `nom::Needed`: how much more input the engine requires. -/
inductive Needed where
  | Unknown
  | Size (s : Nat)
deriving Repr

/-- The crate's error taxonomy (`enum Error` in `src/error.rs`), a closed
variant type with exactly four cases, each carrying one message string. -/
inductive Error where
  | ParseError (s : String)
  | ParseIncomplete (s : String)
  | GenerateError (s : String)
  | RecursionLimit (s : String)
deriving Repr, DecidableEq

/-- The `impl fmt::Display for Error`: every arm writes the stored
string verbatim. -/
def Error.display : Error → String
  | .ParseError s => s
  | .ParseIncomplete s => s
  | .GenerateError s => s
  | .RecursionLimit s => s

/-- The `impl error::Error for Error` accessor `description`: the body
ignores `self` and returns the fixed string. -/
def Error.description : Error → String :=
  fun _ => "BNF error"

/-- The derived `PartialEq` on `Error`: equal iff the same variant with
equal message strings. -/
def Error.beq : Error → Error → Bool
  | .ParseError a, .ParseError b => a == b
  | .ParseIncomplete a, .ParseIncomplete b => a == b
  | .GenerateError a, .GenerateError b => a == b
  | .RecursionLimit a, .RecursionLimit b => a == b
  | _, _ => false

/-- Is `b` a UTF-8 continuation byte (`0x80..=0xBF`)? -/
def isCont (b : Nat) : Bool :=
  decide (0x80 ≤ b) && decide (b ≤ 0xBF)

/-- Valid range of the first continuation byte after lead byte `b`,
following the UTF-8 table used by Rust's standard library (excluding
overlong encodings, surrogates and codepoints above `0x10FFFF`). -/
def cont1ok (b c1 : Nat) : Bool :=
  if b == 0xE0 then decide (0xA0 ≤ c1) && decide (c1 ≤ 0xBF)
  else if b == 0xED then decide (0x80 ≤ c1) && decide (c1 ≤ 0x9F)
  else if b == 0xF0 then decide (0x90 ≤ c1) && decide (c1 ≤ 0xBF)
  else if b == 0xF4 then decide (0x80 ≤ c1) && decide (c1 ≤ 0x8F)
  else isCont c1

/-- The Unicode replacement character U+FFFD. -/
def replChar : Char := Char.ofNat 0xFFFD

/-- Fueled worker for the lossy UTF-8 decode.  Each step consumes at
least one byte and one unit of fuel, so fuel equal to the list length is
always enough.  Invalid sequences are replaced following the Unicode
"substitution of maximal subparts" policy that Rust's
`String::from_utf8_lossy` implements: a maximal well-formed prefix of a
sequence is replaced by a single U+FFFD, and decoding resumes at the
first offending byte. -/
def lossyGo : Nat → List Nat → List Char
  | _, [] => []
  | 0, _ :: _ => []
  | fuel + 1, b :: rest =>
    if b < 0x80 then Char.ofNat b :: lossyGo fuel rest
    else if b < 0xC2 then replChar :: lossyGo fuel rest
    else if b ≤ 0xDF then
      match rest with
      | [] => [replChar]
      | c1 :: rest1 =>
        if isCont c1 then
          Char.ofNat ((b - 0xC0) * 64 + (c1 - 0x80)) :: lossyGo fuel rest1
        else replChar :: lossyGo fuel (c1 :: rest1)
    else if b ≤ 0xEF then
      match rest with
      | [] => [replChar]
      | c1 :: rest1 =>
        if cont1ok b c1 then
          match rest1 with
          | [] => [replChar]
          | c2 :: rest2 =>
            if isCont c2 then
              Char.ofNat ((b - 0xE0) * 4096 + (c1 - 0x80) * 64 + (c2 - 0x80))
                :: lossyGo fuel rest2
            else replChar :: lossyGo fuel (c2 :: rest2)
        else replChar :: lossyGo fuel (c1 :: rest1)
    else if b ≤ 0xF4 then
      match rest with
      | [] => [replChar]
      | c1 :: rest1 =>
        if cont1ok b c1 then
          match rest1 with
          | [] => [replChar]
          | c2 :: rest2 =>
            if isCont c2 then
              match rest2 with
              | [] => [replChar]
              | c3 :: rest3 =>
                if isCont c3 then
                  Char.ofNat ((b - 0xF0) * 262144 + (c1 - 0x80) * 4096
                      + (c2 - 0x80) * 64 + (c3 - 0x80))
                    :: lossyGo fuel rest3
                else replChar :: lossyGo fuel (c3 :: rest3)
            else replChar :: lossyGo fuel (c2 :: rest2)
        else replChar :: lossyGo fuel (c1 :: rest1)
    else replChar :: lossyGo fuel rest

/-- Rust's `String::from_utf8_lossy` on a byte slice: decode as UTF-8,
replacing each maximal invalid subpart by U+FFFD instead of failing. -/
def from_utf8_lossy (p : List Nat) : String :=
  String.mk (lossyGo p.length p)

/-- The `impl From<Err<&[u8]>> for Error` conversion of `src/error.rs`:
build a message string by the four-arm match, wrap it in `ParseError`. -/
def Error.from_nom_err : NomErr → Error
  | .Code _ => .ParseError "Parsing error: Unknown origin"
  | .Node _ n =>
      .ParseError (n.foldl (fun s e => s ++ " " ++ e)
        "Parsing error: Unknown origin.")
  | .Position _ p =>
      .ParseError ("Parsing error: When input is " ++ from_utf8_lossy p)
  | .NodePosition _ p n =>
      .ParseError (n.foldl (fun s e => s ++ " " ++ e)
        ("Parsing error: When input is " ++ from_utf8_lossy p ++ "."))

/-- The `impl From<Needed> for Error` conversion of `src/error.rs`. -/
def Error.from_needed : Needed → Error
  | .Unknown => .ParseIncomplete "Data error: insufficient size, expectation unknown"
  | .Size s =>
      .ParseIncomplete ("Data error: insufficient size, expected "
        ++ toString s ++ " bytes")

/-! Helper lemmas -/

/-- Left-folding the space-separated append over any chain never shortens
the accumulator, so the seed's length bounds the result's length. -/
theorem length_le_foldl_sep (l : List String) (s : String) :
    s.length ≤ (l.foldl (fun a e => a ++ " " ++ e) s).length := by
  induction l generalizing s with
  | nil => exact Nat.le_refl _
  | cons e t ih =>
    refine Nat.le_trans ?_ (ih (s ++ " " ++ e))
    simp [String.length_append]
    omega

/-! Theorems for the claims -/

/-- C1: on a Shape-2 failure (`Err::Node`) the conversion yields
`ParseError` whose message is the left-to-right fold over the sub-error
chain starting from the seed "Parsing error: Unknown origin.", appending
a space and the sub-error's description for each element in original
order; for the chain `[e1, e2]` the message is exactly
"Parsing error: Unknown origin. e1 e2". -/
theorem shape2_node_message_fold (k : ErrorKind) (n : List String) (e1 e2 : String) :
    Error.from_nom_err (NomErr.Node k n)
      = Error.ParseError (n.foldl (fun s e => s ++ " " ++ e)
          "Parsing error: Unknown origin.") ∧
    Error.from_nom_err (NomErr.Node k [e1, e2])
      = Error.ParseError ("Parsing error: Unknown origin. " ++ e1 ++ " " ++ e2) := by
  have h : ("Parsing error: Unknown origin." : String) ++ " "
      = "Parsing error: Unknown origin. " := rfl
  refine ⟨rfl, ?_⟩
  simp only [Error.from_nom_err, List.foldl]
  rw [h]

/-- C2: on a Shape-4 failure (`Err::NodePosition`) the conversion yields
`ParseError` whose message starts from "Parsing error: When input is
{lossy UTF-8 rendering of the slice}." and then fold-appends each
sub-error's description in order, each preceded by one space; shown both
as the general fold and instantiated at the chain `[e1, e2]`. -/
theorem shape4_nodeposition_message_fold (k : ErrorKind) (p : List Nat)
    (n : List String) (e1 e2 : String) :
    Error.from_nom_err (NomErr.NodePosition k p n)
      = Error.ParseError (n.foldl (fun s e => s ++ " " ++ e)
          ("Parsing error: When input is " ++ from_utf8_lossy p ++ ".")) ∧
    Error.from_nom_err (NomErr.NodePosition k p [e1, e2])
      = Error.ParseError ("Parsing error: When input is " ++ from_utf8_lossy p
          ++ ". " ++ e1 ++ " " ++ e2) := by
  have h : ("." : String) ++ " " = ". " := rfl
  refine ⟨rfl, ?_⟩
  simp only [Error.from_nom_err, List.foldl]
  rw [String.append_assoc ("Parsing error: When input is " ++ from_utf8_lossy p) "." " ", h]

/-- C3: on a Shape-3 failure (`Err::Position`) the conversion yields
`ParseError` with message exactly "Parsing error: When input is {lossy
UTF-8 rendering of the slice}", where invalid UTF-8 bytes are replaced by
U+FFFD rather than failing (shown on the byte slice `[0x31, 0xFF, 0x32]`,
whose middle byte is not valid UTF-8). -/
theorem shape3_position_message_lossy (k : ErrorKind) (p : List Nat) :
    Error.from_nom_err (NomErr.Position k p)
      = Error.ParseError ("Parsing error: When input is " ++ from_utf8_lossy p) ∧
    from_utf8_lossy [0x31, 0xFF, 0x32] = "1�2" ∧
    Error.from_nom_err (NomErr.Position k [0x31, 0xFF, 0x32])
      = Error.ParseError "Parsing error: When input is 1�2" := by
  refine ⟨rfl, rfl, rfl⟩

/-- C4: on a Shape-1 failure (`Err::Code`) the conversion yields
`ParseError` with message exactly "Parsing error: Unknown origin"
(no trailing period), whatever the opaque code is. -/
theorem shape1_code_message (k : ErrorKind) :
    Error.from_nom_err (NomErr.Code k)
      = Error.ParseError "Parsing error: Unknown origin" := rfl

/-- C5: the incomplete-signal conversion is total and always yields
`ParseIncomplete`: the unknown-amount shape gives exactly
"Data error: insufficient size, expectation unknown", and the
known-amount shape with count `s` gives exactly "Data error:
insufficient size, expected s bytes" with `s` rendered in decimal
(`Nat.repr`). -/
theorem from_needed_messages (s : Nat) :
    Error.from_needed Needed.Unknown
      = Error.ParseIncomplete "Data error: insufficient size, expectation unknown" ∧
    Error.from_needed (Needed.Size s)
      = Error.ParseIncomplete ("Data error: insufficient size, expected "
          ++ Nat.repr s ++ " bytes") ∧
    Error.from_needed (Needed.Size 8)
      = Error.ParseIncomplete "Data error: insufficient size, expected 8 bytes" := by
  refine ⟨rfl, rfl, rfl⟩

/-- C6: the parse-failure conversion is total and its result is the
`ParseError` variant on every one of the four input shapes. -/
theorem from_nom_err_total_parse_error (e : NomErr) :
    ∃ msg, Error.from_nom_err e = Error.ParseError msg := by
  cases e <;> exact ⟨_, rfl⟩

/-- C7: rendering returns the stored message verbatim for each of the
four variants: `display` is a left inverse of every direct constructor. -/
theorem display_roundtrip (msg : String) :
    (Error.ParseError msg).display = msg ∧
    (Error.ParseIncomplete msg).display = msg ∧
    (Error.GenerateError msg).display = msg ∧
    (Error.RecursionLimit msg).display = msg :=
  ⟨rfl, rfl, rfl, rfl⟩

/-- C8: the derived equality on `Error` is structural — true exactly when
the variant tags agree and the message strings are identical — hence
reflexive, symmetric and transitive; in particular
`ParseError "a"` differs from `ParseIncomplete "a"` and from
`ParseError "b"`. -/
theorem beq_structural_equivalence (a b c : Error) :
    (Error.beq a b = true ↔ a = b) ∧
    Error.beq a a = true ∧
    Error.beq a b = Error.beq b a ∧
    (Error.beq a b = true → Error.beq b c = true → Error.beq a c = true) ∧
    Error.beq (Error.ParseError "a") (Error.ParseIncomplete "a") = false ∧
    Error.beq (Error.ParseError "a") (Error.ParseError "b") = false := by
  have key : ∀ x y : Error, Error.beq x y = true ↔ x = y := by
    intro x y
    cases x <;> cases y <;> simp [Error.beq]
  refine ⟨key a b, (key a a).mpr rfl, ?_, ?_, ?_, ?_⟩
  · by_cases h : a = b
    · subst h; rfl
    · have h1 : Error.beq a b = false :=
        Bool.eq_false_iff.mpr fun hh => h ((key a b).mp hh)
      have h2 : Error.beq b a = false :=
        Bool.eq_false_iff.mpr fun hh => h ((key b a).mp hh).symm
      rw [h1, h2]
  · intro h1 h2
    exact (key a c).mpr (((key a b).mp h1).trans ((key b c).mp h2))
  · decide
  · decide

/-- Witness for C8: the structural-equality theorem applied at concrete
values, with the transitivity hypotheses discharged there. -/
theorem beq_structural_equivalence_witness :
    Error.beq (Error.ParseError "a") (Error.ParseError "a") = true :=
  (beq_structural_equivalence (Error.ParseError "a") (Error.ParseError "a")
    (Error.ParseError "a")).2.2.2.1 (by decide) (by decide)

/-- C9: every value produced by either translation constructor carries a
non-empty message: each constructor starts from a non-empty default
phrase that the fold can only extend. -/
theorem translated_message_nonempty (e : NomErr) (nd : Needed) :
    (Error.from_nom_err e).display ≠ "" ∧ (Error.from_needed nd).display ≠ "" := by
  have h0 : ("" : String).length = 0 := rfl
  have hdot : ("." : String).length = 1 := rfl
  constructor
  · cases e with
    | Code k =>
      intro h
      exact absurd (show ("Parsing error: Unknown origin" : String) = "" from h)
        (by decide)
    | Node k n =>
      intro h
      have hlen := length_le_foldl_sep n "Parsing error: Unknown origin."
      have h2 : (n.foldl (fun a e => a ++ " " ++ e)
          "Parsing error: Unknown origin.") = "" := h
      rw [h2] at hlen
      exact absurd hlen (by decide)
    | Position k p =>
      intro h
      have h2 : ("Parsing error: When input is " ++ from_utf8_lossy p) = "" := h
      have h3 := congrArg String.length h2
      rw [String.length_append, h0] at h3
      have h4 : ("Parsing error: When input is " : String).length = 29 := by decide
      rw [h4] at h3
      exact absurd h3 (by omega)
    | NodePosition k p n =>
      intro h
      have hlen := length_le_foldl_sep n
        ("Parsing error: When input is " ++ from_utf8_lossy p ++ ".")
      have h2 : (n.foldl (fun a e => a ++ " " ++ e)
          ("Parsing error: When input is " ++ from_utf8_lossy p ++ ".")) = "" := h
      rw [h2, h0] at hlen
      rw [String.length_append, String.length_append] at hlen
      have h4 : ("Parsing error: When input is " : String).length = 29 := by decide
      rw [h4, hdot] at hlen
      exact absurd hlen (by omega)
  · cases nd with
    | Unknown =>
      intro h
      exact absurd
        (show ("Data error: insufficient size, expectation unknown" : String) = "" from h)
        (by decide)
    | Size s =>
      intro h
      have h2 : ("Data error: insufficient size, expected "
          ++ toString s ++ " bytes") = "" := h
      have h3 := congrArg String.length h2
      rw [String.length_append, String.length_append, h0] at h3
      have h4 : ("Data error: insufficient size, expected " : String).length = 40 := by
        decide
      rw [h4] at h3
      exact absurd h3 (by omega)

/-- Witness for C9: the non-emptiness theorem applied at a concrete
failure and a concrete incomplete signal. -/
theorem translated_message_nonempty_witness :
    (Error.from_nom_err (NomErr.Code 0)).display ≠ "" ∧
    (Error.from_needed Needed.Unknown).display ≠ "" :=
  translated_message_nonempty (NomErr.Code 0) Needed.Unknown

/-- C10: the `error::Error::description` accessor returns the fixed
string "BNF error" for every value, regardless of variant or stored
message; the stored message is only returned by `display`. -/
theorem description_constant (e : Error) :
    Error.description e = "BNF error" := rfl
